import Mathlib

/-!
Verification of the Mandate evaluation core.

This file gives a shallow embedding, in Lean 4, of the evaluation pipeline of
the repository: the feature builder (`src/lib/engine/featureBuilder.ts`), the
deterministic scorer (`src/lib/engine/deterministicScorer.ts`), the confidence
computation (`src/lib/engine/confidenceComputation.ts`), the escalation policy
(`escalationPolicy.ts`), the mock risk generator (`mock.ts`), the JSON guard
(`jsonGuard.ts`), the risk-discovery adapter (`riskDiscovery.ts`) and the
orchestrator (`evaluationPipeline.ts`, `evaluateProposal`).

Modelling conventions:
* JavaScript numbers are modelled as rationals (`ℚ`); the arithmetic in the
  pipeline consists of literal additions, subtractions, multiplications and a
  single guarded division, so the rational semantics is the intended real
  semantics of the code.
* JavaScript strings are Lean `String`s, operated on through their `data`
  character lists; `String.prototype.includes`, `trim`, `toLowerCase`, `slice`
  and the three regexes appearing in the source are given explicit executable
  models below, each documented with the regex it implements.
* `JSON.parse` is a JavaScript runtime builtin, not repository code; it is
  abstracted as a parameter `jp : String → Option Json` (`none` models a parse
  exception).  Everything downstream of it — the three extraction strategies,
  the zod schema validation and the fail-closed wrapper — is embedded from the
  repository source.
* The external model call of `discoverRisks` is the single non-deterministic
  step; it is modelled by a `RiskMode` parameter carrying either demo mode,
  a completed call with a given response content string, or a transport error.
-/

namespace Mandate

/-! ### JavaScript string primitives -/

/-- Model of `String.prototype.includes`: `pat` occurs as a contiguous
substring of `hay`. -/
def jsIncludes (hay pat : String) : Bool :=
  hay.data.tails.any (fun t => pat.data.isPrefixOf t)

/-- Model of `String.prototype.toLowerCase` (character-wise lowering). -/
def jsToLower (s : String) : String :=
  ⟨s.data.map Char.toLower⟩

/-- Model of `String.prototype.trim`: strip whitespace from both ends. -/
def jsTrim (s : String) : String :=
  ⟨((s.data.dropWhile Char.isWhitespace).reverse.dropWhile Char.isWhitespace).reverse⟩

/-- Model of `String.prototype.slice(0, n)`. -/
def jsSlice (s : String) (n : Nat) : String :=
  ⟨s.data.take n⟩

/-- Model of `Number.prototype.toFixed(0)` for the non-negative numbers the
pipeline prints: round to the nearest integer, ties to the larger value, and
print in decimal. -/
def jsToFixed0 (q : ℚ) : String :=
  toString (round q)

/-- Characters matched by the regex class `[\d,]`. -/
def isDigitOrComma (c : Char) : Bool :=
  c.isDigit || c = ','

/-- Digits of a decimal numeral folded to a natural number. -/
def digitsToNat (l : List Char) : Nat :=
  l.foldl (fun n c => 10 * n + (c.toNat - '0'.toNat)) 0

/-- Model of `parseInt` applied to a capture of `[\d,]+` with commas removed:
the remaining string is all digits; an empty string gives `NaN`, modelled as
`none`. -/
def jsParseIntDigits (l : List Char) : Option Nat :=
  if l.isEmpty then none else some (digitsToNat l)

/-! ### Regex models

The scorer uses three regexes.  Each is modelled as a leftmost-match scan over
the character list, mirroring JavaScript `String.prototype.match` semantics.
-/

/-- Leftmost match of `/\$[\d,]+k?/i` (used by `estimateImpact`): a dollar
sign, a nonempty run of digits/commas, then an optional `k` or `K`.  Returns
the full matched text. -/
def costFigureMatch : List Char → Option (List Char)
  | [] => none
  | c :: rest =>
    if c = '$' then
      let run := rest.takeWhile isDigitOrComma
      if run.isEmpty then costFigureMatch rest
      else
        let after := rest.drop run.length
        match after with
        | 'k' :: _ => some ('$' :: run ++ ['k'])
        | 'K' :: _ => some ('$' :: run ++ ['K'])
        | _ => some ('$' :: run)
    else costFigureMatch rest

/-- Leftmost match of `/\$?([\d,]+)k?/i` (used on a non-negotiable constraint
by `checkConstraints`): returns capture group 1, the digits/commas run. -/
def moneyGroup : List Char → Option (List Char)
  | [] => none
  | c :: rest =>
    if isDigitOrComma c then some ((c :: rest).takeWhile isDigitOrComma)
    else if c = '$' ∧ (rest.takeWhile isDigitOrComma) ≠ [] then
      some (rest.takeWhile isDigitOrComma)
    else moneyGroup rest

/-- Leftmost match of `/\$?([\d,]+)k/i` (used on the proposal text by
`checkConstraints`): like `moneyGroup` but the run must be followed by `k` or
`K`.  Returns capture group 1. -/
def moneyGroupK : List Char → Option (List Char)
  | [] => none
  | c :: rest =>
    let here : Option (List Char) :=
      if isDigitOrComma c then
        let run := (c :: rest).takeWhile isDigitOrComma
        match (c :: rest).drop run.length with
        | 'k' :: _ => some run
        | 'K' :: _ => some run
        | _ => none
      else if c = '$' then
        let run := rest.takeWhile isDigitOrComma
        if run.isEmpty then none
        else
          match rest.drop run.length with
          | 'k' :: _ => some run
          | 'K' :: _ => some run
          | _ => none
      else none
    match here with
    | some g => some g
    | none => moneyGroupK rest

/-! ### featureBuilder.ts -/

/-- `Features` (featureBuilder.ts). -/
structure Features where
  missingFieldsCount : Nat
  complexityScore : ℚ
  dependencyCount : Nat
  assumptionCount : Nat
  scopeLength : Nat
  hasAssumptions : Bool
  hasDependencies : Bool

/-- `ProposalInput` (featureBuilder.ts). -/
structure ProposalInput where
  title : String
  summary : String
  assumptions : List String
  scope : String
  dependencies : List String

/-- `buildFeatures` (featureBuilder.ts). -/
def buildFeatures (proposal : ProposalInput) : Features :=
  let assumptions := proposal.assumptions
  let dependencies := proposal.dependencies
  let missingFieldsCount : Nat :=
    (if jsTrim proposal.title = "" then 1 else 0) +
    (if jsTrim proposal.summary = "" then 1 else 0) +
    (if jsTrim proposal.scope = "" then 1 else 0) +
    (if assumptions.length = 0 then 1 else 0) +
    (if dependencies.length = 0 then 1 else 0)
  let scopeLength := proposal.scope.length
  let complexityScore : ℚ :=
    min 1 (((scopeLength : ℚ) / 500) * 0.4 +
      ((dependencies.length : ℚ) / 5) * 0.3 +
      ((assumptions.length : ℚ) / 5) * 0.3)
  { missingFieldsCount := missingFieldsCount
    complexityScore := complexityScore
    dependencyCount := dependencies.length
    assumptionCount := assumptions.length
    scopeLength := scopeLength
    hasAssumptions := decide (assumptions.length > 0)
    hasDependencies := decide (dependencies.length > 0) }

/-! ### schemas.ts: enumerations and core data -/

/-- Severity enumeration of `RiskItemSchema` (schemas.ts). -/
inductive Severity where
  | low
  | med
  | high
  deriving DecidableEq, Repr

/-- `RiskToleranceSchema` enumeration (schemas.ts). -/
inductive RiskTolerance where
  | CONSERVATIVE
  | MODERATE
  | AGGRESSIVE
  deriving DecidableEq, Repr

/-- Recommendation enumeration of `DecisionObjectSchema` (schemas.ts). -/
inductive Recommendation where
  | APPROVE
  | REVISE
  | ESCALATE
  deriving DecidableEq, Repr

/-- `RiskItem` (schemas.ts). -/
structure RiskItem where
  risk : String
  severity : Severity
  evidence_needed : String
  deriving DecidableEq, Repr

/-- `RiskDiscoveryOutput` (schemas.ts). -/
structure RiskDiscoveryOutput where
  implicit_assumptions : List RiskItem
  second_order_effects : List RiskItem
  tail_risks : List RiskItem
  metric_gaming_vectors : List RiskItem
  cross_functional_impacts : List RiskItem
  top_3_unseen_risks : List String
  data_to_collect_next : List String
  deriving DecidableEq, Repr

/-- `Weights` (schemas.ts). -/
structure Weights where
  growth : ℚ
  cost : ℚ
  risk : ℚ
  brand : ℚ

/-! ### deterministicScorer.ts -/

/-- `ImpactEstimate` (deterministicScorer.ts). -/
structure ImpactEstimate where
  growth : String
  cost : String
  risk : String
  brand : String

/-- `Scores` (deterministicScorer.ts). -/
structure Scores where
  impactEstimate : ImpactEstimate
  tradeoffScore : ℚ
  conflicts : List String
  constraintViolations : List String

/-- `MandateInput` (deterministicScorer.ts). -/
structure MandateInput where
  weights : Weights
  riskTolerance : RiskTolerance
  nonNegotiables : List String

/-- `estimateImpact` (deterministicScorer.ts). -/
def estimateImpact (proposal : ProposalInput) (features : Features) : ImpactEstimate :=
  let text := jsToLower proposal.summary ++ " " ++ jsToLower proposal.scope
  let growth :=
    if jsIncludes text "expand" || jsIncludes text "growth" || jsIncludes text "new market" then
      if features.complexityScore > 0.5 then "High (+15-25%)" else "Medium (+5-15%)"
    else if jsIncludes text "optimize" || jsIncludes text "improve" then "Low (+2-5%)"
    else "Neutral"
  let cost :=
    match costFigureMatch text.data with
    | some m => (⟨m⟩ : String)
    | none =>
      if features.complexityScore > 0.7 then "High (>$500k est.)"
      else if features.complexityScore > 0.4 then "Medium ($100-500k est.)"
      else "Low (<$100k est.)"
  let risk :=
    if features.dependencyCount > 3 ∨ features.complexityScore > 0.7 then "High"
    else if features.dependencyCount ≤ 1 ∧ features.complexityScore < 0.3 then "Low"
    else "Medium"
  let brand :=
    if jsIncludes text "customer" || jsIncludes text "user experience" || jsIncludes text "brand" then
      "Positive"
    else if jsIncludes text "cost cut" || jsIncludes text "layoff" || jsIncludes text "reduce" then
      "Risk of negative"
    else "Neutral"
  { growth := growth, cost := cost, risk := risk, brand := brand }

/-- `calculateTradeoffScore` (deterministicScorer.ts). -/
def calculateTradeoffScore (weights : Weights) (impact : ImpactEstimate)
    (features : Features) : ℚ :=
  let growthScore : ℚ :=
    if jsIncludes impact.growth "High" then 0.9
    else if jsIncludes impact.growth "Medium" then 0.6
    else if jsIncludes impact.growth "Low" then 0.3 else 0.5
  let costScore : ℚ :=
    if jsIncludes impact.cost "Low" then 0.9
    else if jsIncludes impact.cost "Medium" then 0.6
    else if jsIncludes impact.cost "High" then 0.3 else 0.5
  let riskScore : ℚ :=
    if impact.risk = "Low" then 0.9 else if impact.risk = "Medium" then 0.6 else 0.3
  let brandScore : ℚ :=
    if impact.brand = "Positive" then 0.9 else if impact.brand = "Neutral" then 0.6 else 0.3
  let total := weights.growth + weights.cost + weights.risk + weights.brand
  if total = 0 then 0.5
  else
    let score :=
      (weights.growth * growthScore + weights.cost * costScore +
        weights.risk * riskScore + weights.brand * brandScore) / total
    let penalty := (features.missingFieldsCount : ℚ) * 0.05
    max 0 (min 1 (score - penalty))

/-- `detectConflicts` (deterministicScorer.ts). -/
def detectConflicts (proposal : ProposalInput) (features : Features) : List String :=
  let text := jsToLower (proposal.summary ++ " " ++ proposal.scope)
  (if jsIncludes text "reduce cost" && jsIncludes text "expand" then
    ["Proposal aims to both reduce costs and expand - potential resource conflict"] else []) ++
  (if jsIncludes text "fast" && jsIncludes text "thorough" then
    ["Speed and thoroughness goals may conflict"] else []) ++
  (if features.dependencyCount > 3 && jsIncludes text "quick" then
    ["Many dependencies may conflict with quick timeline"] else [])

/-- Violations contributed by one non-negotiable constraint in the loop body of
`checkConstraints` (deterministicScorer.ts): the budget check, the layoff
check and the data-privacy check, in source order. -/
def constraintViolationsFor (text : String) (constraint : String) : List String :=
  let constraintLower := jsToLower constraint
  let budget :=
    if jsIncludes constraintLower "budget" || jsIncludes constraintLower "$" then
      match moneyGroup constraintLower.data with
      | some g =>
        let limit := jsParseIntDigits (g.filter (fun c => ¬ (c = ',')))
        match moneyGroupK text.data with
        | some g2 =>
          let proposalCost := jsParseIntDigits (g2.filter (fun c => ¬ (c = ',')))
          match proposalCost, limit with
          | some pc, some li =>
            if pc > li then ["Budget constraint violated: " ++ constraint] else []
          | _, _ => []
        | none => []
      | none => []
    else []
  let layoff :=
    if jsIncludes constraintLower "no layoff" && jsIncludes text "layoff" then
      ["Constraint violated: " ++ constraint]
    else []
  let privacy :=
    if jsIncludes constraintLower "data privacy" &&
        (jsIncludes text "share data" || jsIncludes text "third party") then
      ["Potential data privacy constraint violation: " ++ constraint]
    else []
  budget ++ layoff ++ privacy

/-- `checkConstraints` (deterministicScorer.ts). -/
def checkConstraints (nonNegotiables : List String) (proposal : ProposalInput) : List String :=
  let text := jsToLower (proposal.title ++ " " ++ proposal.summary ++ " " ++ proposal.scope)
  nonNegotiables.flatMap (constraintViolationsFor text)

/-- `scoreProposal` (deterministicScorer.ts). -/
def scoreProposal (mandate : MandateInput) (proposal : ProposalInput)
    (features : Features) : Scores :=
  let impactEstimate := estimateImpact proposal features
  let tradeoffScore := calculateTradeoffScore mandate.weights impactEstimate features
  let conflicts := detectConflicts proposal features
  let constraintViolations := checkConstraints mandate.nonNegotiables proposal
  { impactEstimate := impactEstimate
    tradeoffScore := tradeoffScore
    conflicts := conflicts
    constraintViolations := constraintViolations }

/-! ### riskDiscovery.ts: trace shape -/

/-- One `{stage, error}` entry of `ModelTrace.failures` (riskDiscovery.ts). -/
structure TraceFailure where
  stage : String
  error : String
  deriving DecidableEq, Repr

/-- `ModelTrace` (riskDiscovery.ts). -/
structure ModelTrace where
  provider : String
  model : String
  promptVersionId : String
  latencyMs : Nat
  failures : List TraceFailure
  deriving DecidableEq, Repr

/-! ### confidenceComputation.ts -/

/-- `ConfidenceResult` (confidenceComputation.ts). -/
structure ConfidenceResult where
  confidence : ℚ
  reasons : List String

/-- `computeConfidence` (confidenceComputation.ts): base 0.8, sequential
penalties and one bonus, each appending a reason, then clamping to [0,1]. -/
def computeConfidence (features : Features) (scores : Scores)
    (risks : RiskDiscoveryOutput) (trace : ModelTrace) : ConfidenceResult :=
  let c0 : ℚ := 0.8
  let r0 : List String := []
  let c1 :=
    if features.missingFieldsCount > 0 then c0 - (features.missingFieldsCount : ℚ) * 0.1
    else c0
  let r1 :=
    if features.missingFieldsCount > 0 then
      r0 ++ ["Missing " ++ toString features.missingFieldsCount ++
        " proposal field(s) (-" ++ jsToFixed0 ((features.missingFieldsCount : ℚ) * 0.1 * 100) ++ "%)"]
    else r0
  let c2 := if trace.failures.length > 0 then c1 - 0.3 else c1
  let r2 :=
    if trace.failures.length > 0 then r1 ++ ["AI risk analysis failed (-30%)"] else r1
  let c3 := if ¬ features.hasAssumptions then c2 - 0.1 else c2
  let r3 :=
    if ¬ features.hasAssumptions then r2 ++ ["No assumptions stated (-10%)"] else r2
  let c4 := if ¬ features.hasDependencies then c3 - 0.05 else c3
  let r4 :=
    if ¬ features.hasDependencies then r3 ++ ["No dependencies stated (-5%)"] else r3
  let totalRisks :=
    risks.implicit_assumptions.length + risks.second_order_effects.length +
    risks.tail_risks.length + risks.metric_gaming_vectors.length +
    risks.cross_functional_impacts.length
  let c5 := if totalRisks > 10 then c4 - 0.1 else c4
  let r5 :=
    if totalRisks > 10 then
      r4 ++ ["High risk count (" ++ toString totalRisks ++ ") (-10%)"]
    else r4
  let c6 :=
    if scores.conflicts.length > 0 then c5 - (scores.conflicts.length : ℚ) * 0.05 else c5
  let r6 :=
    if scores.conflicts.length > 0 then
      r5 ++ [toString scores.conflicts.length ++ " conflict(s) detected (-" ++
        jsToFixed0 ((scores.conflicts.length : ℚ) * 0.05 * 100) ++ "%)"]
    else r5
  let c7 :=
    if features.hasAssumptions ∧ features.hasDependencies ∧ features.missingFieldsCount = 0 then
      c6 + 0.1
    else c6
  let r7 :=
    if features.hasAssumptions ∧ features.hasDependencies ∧ features.missingFieldsCount = 0 then
      r6 ++ ["Well-documented proposal (+10%)"]
    else r6
  let confidence := max 0 (min 1 c7)
  let reasons := if r7.length = 0 then ["Standard confidence assessment"] else r7
  { confidence := confidence, reasons := reasons }

/-! ### escalationPolicy.ts -/

/-- `EscalationResult` (escalationPolicy.ts). -/
structure EscalationResult where
  recommendation : Recommendation
  humanRequired : Bool
  reasons : List String
  deriving DecidableEq, Repr

/-- `applyEscalation` (escalationPolicy.ts): the decision ladder, first match
wins. -/
def applyEscalation (riskTolerance : RiskTolerance) (scores : Scores)
    (risks : RiskDiscoveryOutput) (confidence : ℚ) : EscalationResult :=
  if scores.constraintViolations.length > 0 then
    { recommendation := .ESCALATE, humanRequired := true
      reasons := ["Non-negotiable constraints violated"] }
  else if confidence < 0.4 then
    { recommendation := .ESCALATE, humanRequired := true
      reasons := ["Confidence too low (" ++ jsToFixed0 (confidence * 100) ++ "%)"] }
  else if risks.tail_risks.any (fun r => r.severity = .high) then
    { recommendation := .ESCALATE, humanRequired := true
      reasons := ["High-severity tail risk identified"] }
  else
    let allRisks :=
      risks.implicit_assumptions ++ risks.second_order_effects ++ risks.tail_risks ++
      risks.metric_gaming_vectors ++ risks.cross_functional_impacts
    let highSeverityCount := (allRisks.filter (fun r => r.severity = .high)).length
    if highSeverityCount ≥ 3 then
      { recommendation := .ESCALATE, humanRequired := true
        reasons := ["Multiple high-severity risks (" ++ toString highSeverityCount ++ ")"] }
    else if scores.tradeoffScore ≥ 0.7 then
      if riskTolerance = .CONSERVATIVE then
        { recommendation := .APPROVE, humanRequired := true
          reasons := ["Strong alignment but conservative risk tolerance requires review"] }
      else
        { recommendation := .APPROVE, humanRequired := false
          reasons := ["Strong alignment with mandate"] }
    else if scores.tradeoffScore ≥ 0.5 then
      { recommendation := .APPROVE, humanRequired := true
        reasons := ["Moderate alignment - human review recommended"] }
    else if scores.tradeoffScore ≥ 0.3 then
      { recommendation := .REVISE, humanRequired := false
        reasons := ["Weak alignment with mandate - revision recommended"] }
    else
      { recommendation := .REVISE, humanRequired := true
        reasons := ["Poor alignment with mandate"] }

/-! ### mock.ts: deterministic demo-mode risk sets -/

/-- `getExpansionRisks` (mock.ts). -/
def getExpansionRisks : RiskDiscoveryOutput :=
  { implicit_assumptions :=
      [{ risk := "Assumes local market dynamics mirror domestic patterns", severity := .high,
         evidence_needed := "Market research from target region" },
       { risk := "Assumes existing supply chain can scale to new regions", severity := .med,
         evidence_needed := "Logistics feasibility study" }]
    second_order_effects :=
      [{ risk := "May trigger competitive response from regional incumbents", severity := .high,
         evidence_needed := "Competitive landscape analysis" },
       { risk := "Could strain existing customer support capacity", severity := .med,
         evidence_needed := "Support ticket volume projections" }]
    tail_risks :=
      [{ risk := "Regulatory changes in target region could block market entry", severity := .high,
         evidence_needed := "Regulatory risk assessment" },
       { risk := "Currency fluctuations could erode margins by 20%+", severity := .med,
         evidence_needed := "FX sensitivity analysis" }]
    metric_gaming_vectors :=
      [{ risk := "Teams may count soft launches as expansion wins", severity := .low,
         evidence_needed := "Clear success metric definitions" }]
    cross_functional_impacts :=
      [{ risk := "Legal team capacity for international contracts", severity := .med,
         evidence_needed := "Legal team capacity assessment" },
       { risk := "HR may lack international hiring expertise", severity := .med,
         evidence_needed := "HR international readiness check" }]
    top_3_unseen_risks :=
      ["Regional competitors may respond with aggressive pricing war",
       "Supply chain partners may lack required regional certifications",
       "Cultural differences could affect product-market fit"]
    data_to_collect_next :=
      ["Validate partner certifications in target region",
       "Get treasury sign-off on FX exposure limits",
       "Survey existing customers about regional expansion interest"] }

/-- `getCostCuttingRisks` (mock.ts). -/
def getCostCuttingRisks : RiskDiscoveryOutput :=
  { implicit_assumptions :=
      [{ risk := "Assumes cost cuts won\x27t impact service quality", severity := .high,
         evidence_needed := "Quality baseline metrics" },
       { risk := "Assumes affected teams will maintain productivity", severity := .med,
         evidence_needed := "Change management assessment" }]
    second_order_effects :=
      [{ risk := "Key talent may leave proactively", severity := .high,
         evidence_needed := "Retention risk assessment" },
       { risk := "Vendor relationships may deteriorate", severity := .med,
         evidence_needed := "Vendor dependency mapping" }]
    tail_risks :=
      [{ risk := "Morale collapse could cascade across organization", severity := .high,
         evidence_needed := "Employee sentiment data" },
       { risk := "Critical institutional knowledge may be lost", severity := .med,
         evidence_needed := "Knowledge transfer audit" }]
    metric_gaming_vectors :=
      [{ risk := "Short-term savings may hide long-term capability loss", severity := .high,
         evidence_needed := "Capability impact assessment" }]
    cross_functional_impacts :=
      [{ risk := "PR/communications burden during restructuring", severity := .med,
         evidence_needed := "Communications plan" },
       { risk := "Legal review needed for any workforce changes", severity := .med,
         evidence_needed := "Legal compliance checklist" }]
    top_3_unseen_risks :=
      ["Competitors may poach talent during transition",
       "Customer perception of instability could affect renewals",
       "Hidden dependencies on roles being eliminated"]
    data_to_collect_next :=
      ["Map critical dependencies for each affected role",
       "Assess competitor hiring activity",
       "Survey customer sentiment baseline"] }

/-- `getTechRisks` (mock.ts). -/
def getTechRisks : RiskDiscoveryOutput :=
  { implicit_assumptions :=
      [{ risk := "Assumes current team has required technical skills", severity := .med,
         evidence_needed := "Skills gap analysis" },
       { risk := "Assumes integration with existing systems is straightforward", severity := .high,
         evidence_needed := "Technical architecture review" }]
    second_order_effects :=
      [{ risk := "New tech may require retraining across organization", severity := .med,
         evidence_needed := "Training needs assessment" },
       { risk := "Legacy system deprecation timeline may be unrealistic", severity := .med,
         evidence_needed := "Migration complexity analysis" }]
    tail_risks :=
      [{ risk := "Vendor lock-in could limit future flexibility", severity := .med,
         evidence_needed := "Vendor exit strategy" },
       { risk := "Security vulnerabilities in new stack unknown", severity := .high,
         evidence_needed := "Security audit plan" }]
    metric_gaming_vectors :=
      [{ risk := "Performance benchmarks may not reflect production load", severity := .med,
         evidence_needed := "Realistic load testing plan" }]
    cross_functional_impacts :=
      [{ risk := "Operations team needs new monitoring capabilities", severity := .med,
         evidence_needed := "Ops readiness checklist" },
       { risk := "Compliance requirements for new data flows", severity := .med,
         evidence_needed := "Compliance review" }]
    top_3_unseen_risks :=
      ["Integration complexity often 3x initial estimates",
       "Key technical staff may resist change",
       "Hidden data migration costs"]
    data_to_collect_next :=
      ["Conduct proof-of-concept with production-like data",
       "Map all integration points with existing systems",
       "Assess team technical readiness"] }

/-- `getGenericRisks` (mock.ts). -/
def getGenericRisks : RiskDiscoveryOutput :=
  { implicit_assumptions :=
      [{ risk := "Timeline assumes no competing priorities emerge", severity := .med,
         evidence_needed := "Resource allocation confirmation" },
       { risk := "Budget estimates may not include hidden costs", severity := .med,
         evidence_needed := "Detailed cost breakdown" }]
    second_order_effects :=
      [{ risk := "Success may create expectations for similar initiatives", severity := .low,
         evidence_needed := "Capacity planning" },
       { risk := "Failure could affect team credibility for future proposals", severity := .med,
         evidence_needed := "Risk mitigation plan" }]
    tail_risks :=
      [{ risk := "External market conditions could invalidate assumptions", severity := .med,
         evidence_needed := "Market monitoring plan" }]
    metric_gaming_vectors :=
      [{ risk := "Success metrics may be cherry-picked post-hoc", severity := .low,
         evidence_needed := "Pre-registered success criteria" }]
    cross_functional_impacts :=
      [{ risk := "Other teams may have unstated dependencies", severity := .med,
         evidence_needed := "Cross-team dependency mapping" }]
    top_3_unseen_risks :=
      ["Stakeholder alignment may be shallower than assumed",
       "Resource availability may shift mid-project",
       "Scope creep risk not explicitly managed"]
    data_to_collect_next :=
      ["Confirm stakeholder commitment in writing",
       "Validate resource availability with managers",
       "Define explicit scope boundaries"] }

/-- `getMockRisks` (mock.ts): keyword classification of the proposal into one
of the four canned risk sets. -/
def getMockRisks (proposalTitle proposalSummary : String) : RiskDiscoveryOutput :=
  let text := jsToLower (proposalTitle ++ " " ++ proposalSummary)
  if jsIncludes text "expansion" || jsIncludes text "market" || jsIncludes text "apac" ||
      jsIncludes text "region" then
    getExpansionRisks
  else if jsIncludes text "cost" || jsIncludes text "cut" || jsIncludes text "reduce" ||
      jsIncludes text "efficiency" then
    getCostCuttingRisks
  else if jsIncludes text "tech" || jsIncludes text "infrastructure" ||
      jsIncludes text "platform" then
    getTechRisks
  else getGenericRisks

/-- `getMockTrace` (mock.ts). -/
def getMockTrace : ModelTrace :=
  { provider := "mock", model := "demo-mode", promptVersionId := "mock-v1",
    latencyMs := 50, failures := [] }

/-! ### JSON values and the zod schema (schemas.ts)

`JSON.parse` itself is a JavaScript runtime builtin, so it is abstracted as a
parameter `jp : String → Option Json` throughout (`none` models a parse
exception).  The schema validation below is embedded from `RiskItemSchema` and
`RiskDiscoverySchema` in schemas.ts.
-/

/-- JSON values, the possible results of `JSON.parse`. -/
inductive Json where
  | null
  | bool (b : Bool)
  | num (q : ℚ)
  | str (s : String)
  | arr (items : List Json)
  | obj (fields : List (String × Json))

/-- Property lookup on a parsed JSON object.  `JSON.parse` keeps the last of
duplicate keys, hence the reversed search. -/
def jsonLookup (fields : List (String × Json)) (key : String) : Option Json :=
  (fields.reverse.find? (fun p => p.1 = key)).map (fun p => p.2)

/-- Model of `z.string().max(n)`: a JSON string of at most `n` characters;
anything else is rejected, never truncated. -/
def parseBoundedString (n : Nat) : Json → Option String
  | .str s => if s.length ≤ n then some s else none
  | _ => none

/-- Model of `z.enum(['low', 'med', 'high'])`. -/
def parseSeverity : Json → Option Severity
  | .str "low" => some .low
  | .str "med" => some .med
  | .str "high" => some .high
  | _ => none

/-- Model of `RiskItemSchema` (schemas.ts): an object with `risk` (≤200
chars), `severity` (enum) and `evidence_needed` (≤200 chars). -/
def parseRiskItem : Json → Option RiskItem
  | .obj fields => do
    let risk ← (jsonLookup fields "risk").bind (parseBoundedString 200)
    let severity ← (jsonLookup fields "severity").bind parseSeverity
    let evidence ← (jsonLookup fields "evidence_needed").bind (parseBoundedString 200)
    some { risk := risk, severity := severity, evidence_needed := evidence }
  | _ => none

/-- Element-wise validation of a JSON array (zod validates every element; any
invalid element rejects the array). -/
def parseElems (p : Json → Option α) : List Json → Option (List α)
  | [] => some []
  | x :: xs => (p x).bind fun a => (parseElems p xs).map (fun l => a :: l)

/-- Model of `z.array(elem).max(cap).default([])` applied to an object field:
a missing field defaults to `[]`; a non-array (including `null`) is rejected;
an array longer than `cap` is rejected, never truncated. -/
def parseCappedArray (cap : Nat) (p : Json → Option α) : Option Json → Option (List α)
  | none => some []
  | some (.arr xs) => if xs.length ≤ cap then parseElems p xs else none
  | some _ => none

/-- Model of `RiskDiscoverySchema.safeParse` (schemas.ts): `some` on success,
`none` on any validation failure.  The five category lists are capped at 5,
`top_3_unseen_risks` at 3, `data_to_collect_next` at 5; non-objects are
rejected. -/
def riskDiscoverySafeParse : Json → Option RiskDiscoveryOutput
  | .obj fields => do
    let ia ← parseCappedArray 5 parseRiskItem (jsonLookup fields "implicit_assumptions")
    let so ← parseCappedArray 5 parseRiskItem (jsonLookup fields "second_order_effects")
    let tr ← parseCappedArray 5 parseRiskItem (jsonLookup fields "tail_risks")
    let mg ← parseCappedArray 5 parseRiskItem (jsonLookup fields "metric_gaming_vectors")
    let cf ← parseCappedArray 5 parseRiskItem (jsonLookup fields "cross_functional_impacts")
    let top ← parseCappedArray 3 (parseBoundedString 200) (jsonLookup fields "top_3_unseen_risks")
    let dn ← parseCappedArray 5 (parseBoundedString 200) (jsonLookup fields "data_to_collect_next")
    some { implicit_assumptions := ia, second_order_effects := so, tail_risks := tr,
           metric_gaming_vectors := mg, cross_functional_impacts := cf,
           top_3_unseen_risks := top, data_to_collect_next := dn }
  | _ => none

/-! ### jsonGuard.ts: defensive JSON extraction -/

/-- Suffix of `l` after the first occurrence of `pat` (`none` when `pat` does
not occur). -/
def afterFirst (pat : List Char) : List Char → Option (List Char)
  | [] => if pat.isPrefixOf ([] : List Char) then some [] else none
  | c :: rest =>
    if pat.isPrefixOf (c :: rest) then some ((c :: rest).drop pat.length)
    else afterFirst pat rest

/-- Longest prefix of `l` before the first occurrence of `pat` (`none` when
`pat` does not occur). -/
def takeUntil (pat : List Char) : List Char → Option (List Char)
  | [] => if pat.isPrefixOf ([] : List Char) then some [] else none
  | c :: rest =>
    if pat.isPrefixOf (c :: rest) then some []
    else (takeUntil pat rest).map (fun t => c :: t)

/-- Capture group of the fenced-code-block regex
`/(three backticks)(?:json)?\s*([\s\S]*?)(three backticks)/` in jsonGuard.ts:
after the first fence, an optional `json` tag and leading whitespace are
skipped, and the (lazy) content up to the closing fence is the group. -/
def codeBlockGroup (raw : String) : Option String :=
  let fence := "```".data
  (afterFirst fence raw.data).bind fun rest =>
    let rest1 := if "json".data.isPrefixOf rest then rest.drop 4 else rest
    let rest2 := rest1.dropWhile Char.isWhitespace
    (takeUntil fence rest2).map (fun g => (⟨g⟩ : String))

/-- Match of the regex `/\{[\s\S]*\}/` in jsonGuard.ts: the span from the
first `\x7b` to the last `\x7d` of the text, provided the brace pair is
ordered. -/
def braceSpan (raw : String) : Option String :=
  let l := raw.data
  match l.findIdx? (fun c => c = '\x7b') with
  | none => none
  | some i =>
    match l.reverse.findIdx? (fun c => c = '\x7d') with
    | none => none
    | some k =>
      let j := l.length - 1 - k
      if i < j then some (⟨(l.drop i).take (j - i + 1)⟩ : String) else none

/-- `extractAndValidateJson` (jsonGuard.ts) specialised to
`RiskDiscoverySchema`: strategy 1 parses the raw response; on failure,
strategy 2 parses the trimmed contents of the first fenced code block (and
throws if that fails, without trying strategy 3); otherwise strategy 3 parses
the first-to-last brace span.  A successful parse is then schema-validated.
The zod issue text interpolated into the schema-failure message is abstracted
to a fixed description. -/
def extractAndValidateJson (jp : String → Option Json) (raw : String) :
    Except String RiskDiscoveryOutput :=
  let validate : Json → Except String RiskDiscoveryOutput := fun parsed =>
    match riskDiscoverySafeParse parsed with
    | some d => .ok d
    | none => .error "Schema validation failed: invalid risk discovery output"
  match jp raw with
  | some parsed => validate parsed
  | none =>
    match codeBlockGroup raw with
    | some group =>
      match jp (jsTrim group) with
      | some parsed => validate parsed
      | none => .error "Failed to parse JSON from code block"
    | none =>
      match braceSpan raw with
      | some span =>
        match jp span with
        | some parsed => validate parsed
        | none => .error "Failed to parse extracted JSON"
      | none => .error "No JSON found in response"

/-! ### riskDiscovery.ts -/

/-- `RISK_DISCOVERY_PROMPT_VERSION` (prompts.ts). -/
def RISK_DISCOVERY_PROMPT_VERSION : Nat := 1

/-- `PromptContext` (prompts.ts), the input of `discoverRisks`. -/
structure PromptContext where
  mandateWeights : Weights
  riskTolerance : RiskTolerance
  nonNegotiables : List String
  proposalTitle : String
  proposalSummary : String
  proposalScope : String
  proposalAssumptions : List String
  proposalDependencies : List String

/-- `RiskDiscoveryResult` (riskDiscovery.ts). -/
structure RiskDiscoveryResult where
  risks : RiskDiscoveryOutput
  trace : ModelTrace

/-- `emptyRisks` (riskDiscovery.ts). -/
def emptyRisks : RiskDiscoveryOutput :=
  { implicit_assumptions := [], second_order_effects := [], tail_risks := [],
    metric_gaming_vectors := [], cross_functional_impacts := [],
    top_3_unseen_risks := [], data_to_collect_next := [] }

/-- Outcome of the external model interaction, the one non-deterministic step
of the pipeline: demo mode (no credential), a completed chat call whose first
choice carried `content` (with `jp` abstracting the runtime `JSON.parse` and
`latency` the measured wall time), or a transport error thrown by the call. -/
inductive RiskMode where
  | demo
  | live (jp : String → Option Json) (modelName responseModel : String)
      (latency : Nat) (content : String)
  | liveError (modelName : String) (latency : Nat) (errorText : String)

/-- The non-demo body of `discoverRisks` (riskDiscovery.ts) for a completed
chat call: `raw` is `content || chr(123) ++ chr(125)` (empty content is
replaced by the two-character string of an open and close brace), and a throw
from `extractAndValidateJson` is caught fail-closed into `emptyRisks` plus a
single trace failure.  `String(error)` on the thrown `Error` yields the
`Error: `-prefixed message. -/
def discoverRisksLive (jp : String → Option Json) (modelName responseModel : String)
    (latency : Nat) (content : String) : RiskDiscoveryResult :=
  let raw := if content = "" then "\x7b\x7d" else content
  let versionId := "riskDiscovery-v" ++ toString RISK_DISCOVERY_PROMPT_VERSION
  match extractAndValidateJson jp raw with
  | .ok parsed =>
    { risks := parsed
      trace := { provider := "openai", model := responseModel,
                 promptVersionId := versionId, latencyMs := latency, failures := [] } }
  | .error e =>
    { risks := emptyRisks
      trace := { provider := "openai", model := modelName,
                 promptVersionId := versionId, latencyMs := latency,
                 failures := [{ stage := "riskDiscovery", error := "Error: " ++ e }] } }

/-- `discoverRisks` (riskDiscovery.ts): demo mode short-circuits to the mock
generator; a completed call goes through `discoverRisksLive`; a thrown
transport error is caught into the same fail-closed shape. -/
def discoverRisks (mode : RiskMode) (ctx : PromptContext) : RiskDiscoveryResult :=
  match mode with
  | .demo =>
    { risks := getMockRisks ctx.proposalTitle ctx.proposalSummary, trace := getMockTrace }
  | .live jp modelName responseModel latency content =>
    discoverRisksLive jp modelName responseModel latency content
  | .liveError modelName latency errorText =>
    { risks := emptyRisks
      trace := { provider := "openai", model := modelName,
                 promptVersionId := "riskDiscovery-v" ++ toString RISK_DISCOVERY_PROMPT_VERSION,
                 latencyMs := latency,
                 failures := [{ stage := "riskDiscovery", error := errorText }] } }

/-! ### evaluationPipeline.ts: the orchestrator -/

/-- `DecisionObject` (schemas.ts). -/
structure DecisionObject where
  summary : String
  impact_estimate : ImpactEstimate
  tradeoff_score : ℚ
  conflicts : List String
  constraint_violations : List String
  unseen_risks : RiskDiscoveryOutput
  confidence : ℚ
  confidence_reasons : List String
  required_next_evidence : List String
  recommendation : Recommendation
  human_required : Bool

/-- `EvaluationInput` (evaluationPipeline.ts): the weighted-form mandate plus
the proposal. -/
structure EvaluationInput where
  mandate : MandateInput
  proposal : ProposalInput

/-- `EvaluationOutput` (evaluationPipeline.ts). -/
structure EvaluationOutput where
  decisionObject : DecisionObject
  trace : ModelTrace

/-- `generateSummary` (evaluationPipeline.ts): recommendation verb, title,
optional violation/conflict counts, tradeoff percentage, then `slice(0, 240)`. -/
def generateSummary (proposal : ProposalInput) (scores : Scores)
    (recommendation : Recommendation) : String :=
  let action :=
    match recommendation with
    | .APPROVE => "Proceed with"
    | .REVISE => "Revise"
    | .ESCALATE => "Escalate"
  let s := action ++ ": " ++ proposal.title ++ ". " ++
    (if scores.constraintViolations.length > 0 then
      toString scores.constraintViolations.length ++ " constraint violation(s). " else "") ++
    (if scores.conflicts.length > 0 then
      toString scores.conflicts.length ++ " conflict(s) detected. " else "") ++
    "Tradeoff score: " ++ jsToFixed0 (scores.tradeoffScore * 100) ++ "%."
  jsSlice s 240

/-- `evaluateProposal` (evaluationPipeline.ts): feature building, scoring,
risk discovery, confidence, escalation, and assembly of the `DecisionObject`.
The external model interaction is supplied as `mode`. -/
def evaluateProposal (mode : RiskMode) (input : EvaluationInput) : EvaluationOutput :=
  let mandate := input.mandate
  let proposal := input.proposal
  let features := buildFeatures proposal
  let scores := scoreProposal mandate proposal features
  let result := discoverRisks mode
    { mandateWeights := mandate.weights
      riskTolerance := mandate.riskTolerance
      nonNegotiables := mandate.nonNegotiables
      proposalTitle := proposal.title
      proposalSummary := proposal.summary
      proposalScope := proposal.scope
      proposalAssumptions := proposal.assumptions
      proposalDependencies := proposal.dependencies }
  let risks := result.risks
  let trace := result.trace
  let confidenceResult := computeConfidence features scores risks trace
  let escalation := applyEscalation mandate.riskTolerance scores risks
    confidenceResult.confidence
  let summary := generateSummary proposal scores escalation.recommendation
  { decisionObject :=
      { summary := summary
        impact_estimate := scores.impactEstimate
        tradeoff_score := scores.tradeoffScore
        conflicts := scores.conflicts
        constraint_violations := scores.constraintViolations
        unseen_risks := risks
        confidence := confidenceResult.confidence
        confidence_reasons := confidenceResult.reasons
        required_next_evidence := risks.data_to_collect_next
        recommendation := escalation.recommendation
        human_required := escalation.humanRequired }
    trace := trace }

/-! ### Auxiliary definitions used by theorem statements and witnesses -/

/-- The five risk-category field names of `RiskDiscoverySchema` (schemas.ts),
each capped at 5 items. -/
def riskCategoryFields : List String :=
  ["implicit_assumptions", "second_order_effects", "tail_risks",
   "metric_gaming_vectors", "cross_functional_impacts"]

/-- The keyword families of `getMockRisks` (mock.ts) that select one of the
three themed canned risk sets (expansion, cost-cutting, tech). -/
def demoKeywords : List String :=
  ["expansion", "market", "apac", "region", "cost", "cut", "reduce",
   "efficiency", "tech", "infrastructure", "platform"]

/-- A `JSON.parse` model that fails on every input (e.g. the runtime behaviour
on prose with no JSON). -/
def jpNoJson : String → Option Json := fun _ => none

/-- A `JSON.parse` model agreeing with the JavaScript runtime on the strings
relevant to the empty-response path: it throws (`none`) on the empty string
and parses the two-character open-close-brace string to the empty object. -/
def jpEmptyObject : String → Option Json :=
  fun s => if s = "\x7b\x7d" then some (Json.obj []) else none

/-- Scenario C probe proposal: empty assumptions and dependencies, scope
`TBD`, but a non-blank title and summary. -/
def scenarioCProposal : ProposalInput :=
  { title := "A", summary := "B", assumptions := [], scope := "TBD", dependencies := [] }

/-- Scenario C probe mandate: equal weights, moderate tolerance, no
non-negotiables. -/
def scenarioCMandate : MandateInput :=
  { weights := { growth := 0.25, cost := 0.25, risk := 0.25, brand := 0.25 },
    riskTolerance := .MODERATE, nonNegotiables := [] }

/-- A 201-character string, used to exhibit schema rejection of an oversized
free-text field. -/
def longRiskText : String := ⟨List.replicate 201 'a'⟩

/-- A parsed JSON object whose `tail_risks` category holds six items, one more
than the schema cap. -/
def oversizeTailFields : List (String × Json) :=
  [("tail_risks", Json.arr (List.replicate 6 Json.null))]

/-- A parsed JSON object whose `top_3_unseen_risks` list holds four items, one
more than the schema cap. -/
def oversizeTopFields : List (String × Json) :=
  [("top_3_unseen_risks", Json.arr (List.replicate 4 (Json.str "x")))]

/-- A risk item whose `risk` text exceeds the 200-character cap. -/
def longRiskItemFields : List (String × Json) :=
  [("risk", Json.str longRiskText)]

/-- A parsed JSON object whose `tail_risks` category holds the oversized-text
risk item. -/
def longTailFields : List (String × Json) :=
  [("tail_risks", Json.arr [Json.obj longRiskItemFields])]

/-! ## Helper lemmas -/

/-- `jsIncludes` agrees with list infix containment. -/
theorem jsIncludes_iff {hay pat : String} :
    jsIncludes hay pat = true ↔ pat.data <:+: hay.data := by
  unfold jsIncludes
  rw [List.any_eq_true]
  constructor
  · rintro ⟨t, ht, hp⟩
    rw [List.mem_tails] at ht
    rw [List.isPrefixOf_iff_prefix] at hp
    exact List.infix_iff_prefix_suffix.mpr ⟨t, hp, ht⟩
  · intro h
    obtain ⟨t, hp, ht⟩ := List.infix_iff_prefix_suffix.mp h
    exact ⟨t, (List.mem_tails _ _).mpr ht, List.isPrefixOf_iff_prefix.mpr hp⟩

/-- Lower bound of the `Math.max(0, Math.min(1, x))` clamp. -/
theorem clamp_nonneg (a : ℚ) : 0 ≤ max 0 (min 1 a) := le_max_left _ _

/-- Upper bound of the `Math.max(0, Math.min(1, x))` clamp. -/
theorem clamp_le_one (a : ℚ) : max 0 (min 1 a) ≤ 1 :=
  max_le (by norm_num) (min_le_left _ _)

/-- The clamp respects any non-negative upper bound of its argument. -/
theorem clamp_le_of_le {a b : ℚ} (h : a ≤ b) (h0 : 0 ≤ b) : max 0 (min 1 a) ≤ b :=
  max_le h0 (le_trans (min_le_right _ _) h)

/-- The clamp respects any positive strict upper bound of its argument. -/
theorem clamp_lt_of_lt {a b : ℚ} (h : a < b) (h0 : 0 < b) : max 0 (min 1 a) < b :=
  max_lt h0 (lt_of_le_of_lt (min_le_right _ _) h)

/-- The confidence value is always the `Math.max(0, Math.min(1, x))` clamp of
some rational. -/
theorem computeConfidence_exists_clamp (f : Features) (s : Scores)
    (r : RiskDiscoveryOutput) (t : ModelTrace) :
    ∃ x : ℚ, (computeConfidence f s r t).confidence = max 0 (min 1 x) :=
  ⟨_, rfl⟩

set_option maxHeartbeats 1600000 in
/-- The pre-clamp confidence is at most 0.9 (base 0.8 plus at most the single
0.1 bonus), so the clamped confidence is too. -/
theorem computeConfidence_le_ninetyPercent (f : Features) (s : Scores)
    (r : RiskDiscoveryOutput) (t : ModelTrace) :
    (computeConfidence f s r t).confidence ≤ 0.9 := by
  have hm : (0 : ℚ) ≤ (f.missingFieldsCount : ℚ) := Nat.cast_nonneg _
  have hc : (0 : ℚ) ≤ (s.conflicts.length : ℚ) := Nat.cast_nonneg _
  unfold computeConfidence
  dsimp only
  apply clamp_le_of_le _ (by norm_num)
  split_ifs <;> linarith

set_option maxHeartbeats 1600000 in
/-- With at least three missing fields, no assumptions and no dependencies,
the confidence falls strictly below 0.4, whatever the risks, conflicts and
trace are. -/
theorem computeConfidence_lt_forty (f : Features) (s : Scores)
    (r : RiskDiscoveryOutput) (t : ModelTrace)
    (hm : 3 ≤ f.missingFieldsCount) (hA : f.hasAssumptions = false)
    (hD : f.hasDependencies = false) :
    (computeConfidence f s r t).confidence < 0.4 := by
  have hm3 : (3 : ℚ) ≤ (f.missingFieldsCount : ℚ) := by exact_mod_cast hm
  have hc : (0 : ℚ) ≤ (s.conflicts.length : ℚ) := Nat.cast_nonneg _
  have hmpos : f.missingFieldsCount > 0 := by omega
  unfold computeConfidence
  dsimp only
  apply clamp_lt_of_lt _ (by norm_num)
  simp only [hA, hD, hmpos, Bool.false_eq_true, not_false_eq_true, if_true,
    false_and, if_false]
  split_ifs <;> linarith

/-- Any confidence below 0.4 makes the ladder escalate with mandatory human
review: either the constraint-violation rung or the low-confidence rung fires,
and both produce `ESCALATE` with `humanRequired`. -/
theorem lowConf_escalates (tol : RiskTolerance) (s : Scores) (r : RiskDiscoveryOutput)
    (c : ℚ) (hc : c < 0.4) :
    (applyEscalation tol s r c).recommendation = .ESCALATE ∧
    (applyEscalation tol s r c).humanRequired = true := by
  unfold applyEscalation
  by_cases hv : s.constraintViolations.length > 0
  · rw [if_pos hv]; exact ⟨rfl, rfl⟩
  · rw [if_neg hv, if_pos hc]; exact ⟨rfl, rfl⟩

/-- A high-severity tail risk makes the ladder escalate with mandatory human
review: each of the first three rungs produces `ESCALATE` with
`humanRequired`, and with a high tail risk one of them must fire. -/
theorem highTail_escalates (tol : RiskTolerance) (s : Scores) (r : RiskDiscoveryOutput)
    (c : ℚ) (h : (r.tail_risks.any fun x => x.severity = .high) = true) :
    (applyEscalation tol s r c).recommendation = .ESCALATE ∧
    (applyEscalation tol s r c).humanRequired = true := by
  unfold applyEscalation
  by_cases hv : s.constraintViolations.length > 0
  · rw [if_pos hv]; exact ⟨rfl, rfl⟩
  · by_cases hc : c < 0.4
    · rw [if_neg hv, if_pos hc]; exact ⟨rfl, rfl⟩
    · rw [if_neg hv, if_neg hc, if_pos h]; exact ⟨rfl, rfl⟩

/-- The tradeoff score is either the neutral 0.5 of the zero-weight branch or
a clamped value. -/
theorem calculateTradeoffScore_eq_half_or_clamp (w : Weights) (i : ImpactEstimate)
    (f : Features) :
    calculateTradeoffScore w i f = 0.5 ∨
    ∃ x : ℚ, calculateTradeoffScore w i f = max 0 (min 1 x) := by
  by_cases h : w.growth + w.cost + w.risk + w.brand = 0
  · left
    unfold calculateTradeoffScore
    dsimp only
    rw [if_pos h]
  · right
    unfold calculateTradeoffScore
    dsimp only
    rw [if_neg h]
    exact ⟨_, rfl⟩

/-! ## Claim theorems -/

/-- C2: whenever `scores.constraintViolations` is a non-empty list,
`applyEscalation` returns `recommendation = ESCALATE` and
`humanRequired = true`, for all risk tolerances, tradeoff scores, discovered
risks and confidence values. -/
theorem applyEscalation_constraint_violation_escalates
    (tol : RiskTolerance) (s : Scores) (r : RiskDiscoveryOutput) (c : ℚ)
    (h : s.constraintViolations ≠ []) :
    (applyEscalation tol s r c).recommendation = .ESCALATE ∧
    (applyEscalation tol s r c).humanRequired = true := by
  have hl : s.constraintViolations.length > 0 := List.length_pos.mpr h
  unfold applyEscalation
  rw [if_pos hl]
  exact ⟨rfl, rfl⟩

/-- Witness for C2 at a concrete input with one constraint violation. -/
theorem applyEscalation_constraint_violation_escalates_witness :
    (applyEscalation .AGGRESSIVE
        { impactEstimate := { growth := "Neutral", cost := "Unknown", risk := "Medium", brand := "Neutral" },
          tradeoffScore := 0.9, conflicts := [],
          constraintViolations := ["Constraint violated: No layoffs"] }
        emptyRisks 0.8).recommendation = .ESCALATE ∧
    (applyEscalation .AGGRESSIVE
        { impactEstimate := { growth := "Neutral", cost := "Unknown", risk := "Medium", brand := "Neutral" },
          tradeoffScore := 0.9, conflicts := [],
          constraintViolations := ["Constraint violated: No layoffs"] }
        emptyRisks 0.8).humanRequired = true :=
  applyEscalation_constraint_violation_escalates .AGGRESSIVE _ emptyRisks 0.8
    (by decide)

/-- C6: whenever the confidence is below 0.4, `applyEscalation` returns
`recommendation = ESCALATE` and `humanRequired = true` — both when the
low-confidence rung fires and when the constraint-violation rung fires first,
so in particular when `constraintViolations` is empty. -/
theorem applyEscalation_low_confidence_escalates
    (tol : RiskTolerance) (s : Scores) (r : RiskDiscoveryOutput) (c : ℚ)
    (hc : c < 0.4) :
    (applyEscalation tol s r c).recommendation = .ESCALATE ∧
    (applyEscalation tol s r c).humanRequired = true :=
  lowConf_escalates tol s r c hc

/-- Witness for C6 at a concrete input with empty constraint violations and
confidence 0. -/
theorem applyEscalation_low_confidence_escalates_witness :
    (applyEscalation .MODERATE
        { impactEstimate := { growth := "Neutral", cost := "Unknown", risk := "Medium", brand := "Neutral" },
          tradeoffScore := 0.9, conflicts := [], constraintViolations := [] }
        emptyRisks 0).recommendation = .ESCALATE ∧
    (applyEscalation .MODERATE
        { impactEstimate := { growth := "Neutral", cost := "Unknown", risk := "Medium", brand := "Neutral" },
          tradeoffScore := 0.9, conflicts := [], constraintViolations := [] }
        emptyRisks 0).humanRequired = true :=
  applyEscalation_low_confidence_escalates .MODERATE _ emptyRisks 0 (by norm_num)

/-- C7: with all four weights zero, `calculateTradeoffScore` returns exactly
0.5, and the weight total of the guarded division is zero, so the zero-weight
branch (not the division branch) is the one taken. -/
theorem tradeoffScore_zero_weights_neutral
    (w : Weights) (i : ImpactEstimate) (f : Features)
    (hg : w.growth = 0) (hc : w.cost = 0) (hr : w.risk = 0) (hb : w.brand = 0) :
    calculateTradeoffScore w i f = 0.5 ∧ w.growth + w.cost + w.risk + w.brand = 0 := by
  have htot : w.growth + w.cost + w.risk + w.brand = 0 := by
    rw [hg, hc, hr, hb]; norm_num
  refine ⟨?_, htot⟩
  unfold calculateTradeoffScore
  dsimp only
  rw [if_pos htot]

/-- Witness for C7 at the all-zero weight vector. -/
theorem tradeoffScore_zero_weights_neutral_witness :
    calculateTradeoffScore { growth := 0, cost := 0, risk := 0, brand := 0 }
        { growth := "High (+15-25%)", cost := "Low (<$100k est.)", risk := "Low", brand := "Positive" }
        { missingFieldsCount := 5, complexityScore := 0, dependencyCount := 0,
          assumptionCount := 0, scopeLength := 0, hasAssumptions := false,
          hasDependencies := false } = 0.5 ∧
    (0 : ℚ) + 0 + 0 + 0 = 0 :=
  tradeoffScore_zero_weights_neutral _ _ _ rfl rfl rfl rfl

/-- C4: for every input — including all-zero weights and fully missing
proposals — the tradeoff score produced by `scoreProposal` and the confidence
produced by `computeConfidence` lie in the closed interval [0, 1]. -/
theorem tradeoff_and_confidence_bounded :
    (∀ (m : MandateInput) (p : ProposalInput) (f : Features),
      0 ≤ (scoreProposal m p f).tradeoffScore ∧ (scoreProposal m p f).tradeoffScore ≤ 1) ∧
    (∀ (f : Features) (s : Scores) (r : RiskDiscoveryOutput) (t : ModelTrace),
      0 ≤ (computeConfidence f s r t).confidence ∧
      (computeConfidence f s r t).confidence ≤ 1) := by
  constructor
  · intro m p f
    have heq : (scoreProposal m p f).tradeoffScore =
        calculateTradeoffScore m.weights (estimateImpact p f) f := rfl
    rw [heq]
    rcases calculateTradeoffScore_eq_half_or_clamp m.weights (estimateImpact p f) f with
      h | ⟨x, h⟩
    · rw [h]; norm_num
    · rw [h]; exact ⟨clamp_nonneg x, clamp_le_one x⟩
  · intro f s r t
    obtain ⟨x, hx⟩ := computeConfidence_exists_clamp f s r t
    rw [hx]
    exact ⟨clamp_nonneg x, clamp_le_one x⟩

/-- C10: the confidence is bounded by 0.9 for every input — the base is 0.8
and the only positive adjustment is the single 0.1 bonus, so 1.0 is never
reached even though the declared range is [0, 1]. -/
theorem confidence_at_most_point_nine (f : Features) (s : Scores)
    (r : RiskDiscoveryOutput) (t : ModelTrace) :
    (computeConfidence f s r t).confidence ≤ 0.9 :=
  computeConfidence_le_ninetyPercent f s r t

/-- A `slice(0, n)` result never exceeds `n` characters. -/
theorem jsSlice_length_le (s : String) (n : Nat) : (jsSlice s n).length ≤ n := by
  show (s.data.take n).length ≤ n
  rw [List.length_take]
  exact min_le_left _ _

/-- C1: for every weighted-form input and every outcome of the external model
interaction, `evaluateProposal` is a total function producing a complete
`DecisionObject` (all list fields are typed lists, present even when empty)
together with a `ModelTrace`; the summary is at most 240 characters; and the
trace's failure list — the only place a risk-discovery failure can surface —
is empty or a single entry, never an exception. -/
theorem evaluateProposal_always_complete (mode : RiskMode) (input : EvaluationInput) :
    (evaluateProposal mode input).decisionObject.summary.length ≤ 240 ∧
    ((evaluateProposal mode input).trace.failures = [] ∨
      ∃ e, (evaluateProposal mode input).trace.failures = [e]) := by
  constructor
  · exact jsSlice_length_le _ _
  · cases mode with
    | demo => exact Or.inl rfl
    | live jp modelName responseModel latency content =>
      have hts : (evaluateProposal (.live jp modelName responseModel latency content)
            input).trace =
          (discoverRisksLive jp modelName responseModel latency content).trace := rfl
      rw [hts]
      unfold discoverRisksLive
      dsimp only
      cases h : extractAndValidateJson jp (if content = "" then "\x7b\x7d" else content) with
      | ok d => simp only [h]; exact Or.inl trivial
      | error e => simp only [h]; exact Or.inr ⟨_, rfl⟩
    | liveError modelName latency errorText => exact Or.inr ⟨_, rfl⟩

/-- C3 counterexample: with a non-blank title and summary, empty assumptions,
empty dependencies and scope `TBD`, only two fields are missing, so the
claimed conjunction (`missingFieldsCount ≥ 3`, confidence below 0.4,
escalation) is false at this input. -/
theorem scenarioC_missing_fields_counterexample :
    (buildFeatures scenarioCProposal).missingFieldsCount = 2 ∧
    ¬ (3 ≤ (buildFeatures scenarioCProposal).missingFieldsCount ∧
        (evaluateProposal .demo
            { mandate := scenarioCMandate, proposal := scenarioCProposal
            }).decisionObject.confidence < 0.4 ∧
        (evaluateProposal .demo
            { mandate := scenarioCMandate, proposal := scenarioCProposal
            }).decisionObject.recommendation = .ESCALATE) := by
  have h2 : (buildFeatures scenarioCProposal).missingFieldsCount = 2 := rfl
  refine ⟨h2, fun h => ?_⟩
  rw [h2] at h
  exact absurd h.1 (by norm_num)

/-- C3 (amended): when additionally the title or the summary is blank, the
proposal has at least three missing fields, the confidence falls strictly
below 0.4 — for every mandate and every outcome of the model interaction —
and the evaluation escalates. -/
theorem scenarioC_blank_field_escalates (mode : RiskMode) (m : MandateInput)
    (p : ProposalInput) (ha : p.assumptions = []) (hd : p.dependencies = [])
    (hs : p.scope = "TBD") (hblank : jsTrim p.title = "" ∨ jsTrim p.summary = "") :
    3 ≤ (buildFeatures p).missingFieldsCount ∧
    (evaluateProposal mode { mandate := m, proposal := p }).decisionObject.confidence < 0.4 ∧
    (evaluateProposal mode { mandate := m, proposal := p }).decisionObject.recommendation =
      .ESCALATE := by
  have hTBD : ¬ (jsTrim "TBD" = "") := by decide
  have hmiss : 3 ≤ (buildFeatures p).missingFieldsCount := by
    unfold buildFeatures
    dsimp only
    rw [ha, hd, hs, if_neg hTBD]
    simp only [List.length_nil]
    rcases hblank with h | h <;> rw [if_pos h] <;> split_ifs <;> omega
  have hA : (buildFeatures p).hasAssumptions = false := by
    unfold buildFeatures
    dsimp only
    rw [ha]
    rfl
  have hD : (buildFeatures p).hasDependencies = false := by
    unfold buildFeatures
    dsimp only
    rw [hd]
    rfl
  have hconf := computeConfidence_lt_forty (buildFeatures p)
    (scoreProposal m p (buildFeatures p))
    (discoverRisks mode
      { mandateWeights := m.weights, riskTolerance := m.riskTolerance,
        nonNegotiables := m.nonNegotiables, proposalTitle := p.title,
        proposalSummary := p.summary, proposalScope := p.scope,
        proposalAssumptions := p.assumptions,
        proposalDependencies := p.dependencies }).risks
    (discoverRisks mode
      { mandateWeights := m.weights, riskTolerance := m.riskTolerance,
        nonNegotiables := m.nonNegotiables, proposalTitle := p.title,
        proposalSummary := p.summary, proposalScope := p.scope,
        proposalAssumptions := p.assumptions,
        proposalDependencies := p.dependencies }).trace
    hmiss hA hD
  exact ⟨hmiss, hconf, (lowConf_escalates m.riskTolerance _ _ _ hconf).1⟩

/-- Witness for the amended C3 at a blank-title proposal in demo mode. -/
theorem scenarioC_blank_field_escalates_witness :
    3 ≤ (buildFeatures
          { title := "", summary := "B", assumptions := [], scope := "TBD",
            dependencies := [] }).missingFieldsCount ∧
    (evaluateProposal .demo
        { mandate := scenarioCMandate,
          proposal :=
            { title := "", summary := "B", assumptions := [], scope := "TBD",
              dependencies := [] } }).decisionObject.confidence < 0.4 ∧
    (evaluateProposal .demo
        { mandate := scenarioCMandate,
          proposal :=
            { title := "", summary := "B", assumptions := [], scope := "TBD",
              dependencies := [] } }).decisionObject.recommendation = .ESCALATE :=
  scenarioC_blank_field_escalates .demo scenarioCMandate
    { title := "", summary := "B", assumptions := [], scope := "TBD", dependencies := [] }
    rfl rfl rfl (Or.inl (by decide))

/-- C8: in demo mode, whenever the proposal title contains the substring
`market expansion`, risk discovery returns exactly the canned expansion risk
set with the mock trace (whose failure list is empty) — a pure function of the
input, identical on every call and independent of the summary. -/
theorem discoverRisks_demo_market_expansion (ctx : PromptContext)
    (h : jsIncludes ctx.proposalTitle "market expansion" = true) :
    discoverRisks .demo ctx = { risks := getExpansionRisks, trace := getMockTrace } ∧
    (discoverRisks .demo ctx).trace.failures = [] := by
  have hinf : ("market expansion".data : List Char) <:+: ctx.proposalTitle.data :=
    jsIncludes_iff.mp h
  have hexp1 : ("expansion".data : List Char) <:+: "market expansion".data := by decide
  have h3 : ctx.proposalTitle.data <:+:
      (ctx.proposalTitle ++ " " ++ ctx.proposalSummary).data := by
    rw [String.data_append, String.data_append]
    exact ((List.prefix_append ctx.proposalTitle.data " ".data).trans
      (List.prefix_append _ ctx.proposalSummary.data)).isInfix
  have h4 : ("expansion".data : List Char) <:+:
      (ctx.proposalTitle ++ " " ++ ctx.proposalSummary).data :=
    (hexp1.trans hinf).trans h3
  have h5 : ("expansion".data : List Char) <:+:
      (jsToLower (ctx.proposalTitle ++ " " ++ ctx.proposalSummary)).data := by
    have hmap := h4.map Char.toLower
    rwa [show "expansion".data.map Char.toLower = "expansion".data from by decide] at hmap
  have hB : jsIncludes (jsToLower (ctx.proposalTitle ++ " " ++ ctx.proposalSummary))
      "expansion" = true := jsIncludes_iff.mpr h5
  have hr : getMockRisks ctx.proposalTitle ctx.proposalSummary = getExpansionRisks := by
    unfold getMockRisks
    dsimp only
    simp [hB]
  constructor
  · show ({ risks := getMockRisks ctx.proposalTitle ctx.proposalSummary,
            trace := getMockTrace } : RiskDiscoveryResult) = _
    rw [hr]
  · rfl

/-- Witness for C8 at a concrete expansion-themed title. -/
theorem discoverRisks_demo_market_expansion_witness :
    discoverRisks .demo
        { mandateWeights := { growth := 0.4, cost := 0.2, risk := 0.3, brand := 0.1 },
          riskTolerance := .MODERATE, nonNegotiables := [],
          proposalTitle := "APAC market expansion initiative",
          proposalSummary := "Enter three new countries", proposalScope := "APAC",
          proposalAssumptions := [], proposalDependencies := [] } =
      { risks := getExpansionRisks, trace := getMockTrace } ∧
    (discoverRisks .demo
        { mandateWeights := { growth := 0.4, cost := 0.2, risk := 0.3, brand := 0.1 },
          riskTolerance := .MODERATE, nonNegotiables := [],
          proposalTitle := "APAC market expansion initiative",
          proposalSummary := "Enter three new countries", proposalScope := "APAC",
          proposalAssumptions := [], proposalDependencies := [] }).trace.failures = [] :=
  discoverRisks_demo_market_expansion _ (by decide)

/-- Each themed canned risk set carries a high-severity tail risk, so any
keyword hit forces the tail-risk escalation precondition. -/
theorem getMockRisks_highTail (t s : String)
    (h : (demoKeywords.any fun k => jsIncludes (jsToLower (t ++ " " ++ s)) k) = true) :
    ((getMockRisks t s).tail_risks.any fun x => x.severity = .high) = true := by
  rw [List.any_eq_true] at h
  obtain ⟨k, hk, hik⟩ := h
  have hdisj :
      (jsIncludes (jsToLower (t ++ " " ++ s)) "expansion" ||
        jsIncludes (jsToLower (t ++ " " ++ s)) "market" ||
        jsIncludes (jsToLower (t ++ " " ++ s)) "apac" ||
        jsIncludes (jsToLower (t ++ " " ++ s)) "region") = true ∨
      (jsIncludes (jsToLower (t ++ " " ++ s)) "cost" ||
        jsIncludes (jsToLower (t ++ " " ++ s)) "cut" ||
        jsIncludes (jsToLower (t ++ " " ++ s)) "reduce" ||
        jsIncludes (jsToLower (t ++ " " ++ s)) "efficiency") = true ∨
      (jsIncludes (jsToLower (t ++ " " ++ s)) "tech" ||
        jsIncludes (jsToLower (t ++ " " ++ s)) "infrastructure" ||
        jsIncludes (jsToLower (t ++ " " ++ s)) "platform") = true := by
    fin_cases hk <;> simp_all
  unfold getMockRisks
  dsimp only
  rcases hdisj with h1 | h2 | h3
  · rw [if_pos h1]; decide
  · by_cases h1 : (jsIncludes (jsToLower (t ++ " " ++ s)) "expansion" ||
        jsIncludes (jsToLower (t ++ " " ++ s)) "market" ||
        jsIncludes (jsToLower (t ++ " " ++ s)) "apac" ||
        jsIncludes (jsToLower (t ++ " " ++ s)) "region") = true
    · rw [if_pos h1]; decide
    · rw [if_neg h1, if_pos h2]; decide
  · by_cases h1 : (jsIncludes (jsToLower (t ++ " " ++ s)) "expansion" ||
        jsIncludes (jsToLower (t ++ " " ++ s)) "market" ||
        jsIncludes (jsToLower (t ++ " " ++ s)) "apac" ||
        jsIncludes (jsToLower (t ++ " " ++ s)) "region") = true
    · rw [if_pos h1]; decide
    · by_cases h2 : (jsIncludes (jsToLower (t ++ " " ++ s)) "cost" ||
          jsIncludes (jsToLower (t ++ " " ++ s)) "cut" ||
          jsIncludes (jsToLower (t ++ " " ++ s)) "reduce" ||
          jsIncludes (jsToLower (t ++ " " ++ s)) "efficiency") = true
      · rw [if_neg h1, if_pos h2]; decide
      · rw [if_neg h1, if_neg h2, if_pos h3]; decide

/-- C9: in demo mode, any proposal whose lowercased title-plus-summary
contains one of the eleven mock keywords is evaluated to `ESCALATE` with
mandatory human review, whatever the mandate, tradeoff score or completeness:
every matching canned risk set carries a high-severity tail risk, and every
rung of the ladder reachable in that situation escalates. -/
theorem demo_keyword_forces_escalation (input : EvaluationInput)
    (h : (demoKeywords.any fun k =>
      jsIncludes (jsToLower (input.proposal.title ++ " " ++ input.proposal.summary)) k) = true) :
    (evaluateProposal .demo input).decisionObject.recommendation = .ESCALATE ∧
    (evaluateProposal .demo input).decisionObject.human_required = true := by
  have hmock := getMockRisks_highTail input.proposal.title input.proposal.summary h
  exact ⟨(highTail_escalates input.mandate.riskTolerance _ _ _ hmock).1,
    (highTail_escalates input.mandate.riskTolerance _ _ _ hmock).2⟩

/-- Witness for C9 at a concrete tech-themed proposal. -/
theorem demo_keyword_forces_escalation_witness :
    (evaluateProposal .demo
        { mandate :=
            { weights := { growth := 1, cost := 1, risk := 1, brand := 1 },
              riskTolerance := .AGGRESSIVE, nonNegotiables := [] },
          proposal :=
            { title := "Nationwide tech rollout", summary := "Deploy the new stack",
              assumptions := ["funding secured"], scope := "all offices",
              dependencies := ["vendor"] } }).decisionObject.recommendation = .ESCALATE ∧
    (evaluateProposal .demo
        { mandate :=
            { weights := { growth := 1, cost := 1, risk := 1, brand := 1 },
              riskTolerance := .AGGRESSIVE, nonNegotiables := [] },
          proposal :=
            { title := "Nationwide tech rollout", summary := "Deploy the new stack",
              assumptions := ["funding secured"], scope := "all offices",
              dependencies := ["vendor"] } }).decisionObject.human_required = true :=
  demo_keyword_forces_escalation _ (by decide)

/-- An array strictly longer than the cap is rejected by the capped-array
validator, never truncated. -/
theorem parseCappedArray_none_of_overflow {α} (cap : Nat) (p : Json → Option α)
    (xs : List Json) (h : cap < xs.length) :
    parseCappedArray cap p (some (.arr xs)) = none := by
  unfold parseCappedArray
  dsimp only
  rw [if_neg (by omega)]

/-- A single invalid element rejects the whole array. -/
theorem parseElems_none_of_mem {α} (p : Json → Option α) {xs : List Json} {x : Json}
    (hx : x ∈ xs) (hnone : p x = none) : parseElems p xs = none := by
  induction xs with
  | nil => cases hx
  | cons a as ih =>
    rcases List.mem_cons.mp hx with rfl | hmem
    · simp [parseElems, hnone]
    · cases hpa : p a with
      | none => simp [parseElems, hpa]
      | some b => simp [parseElems, hpa, ih hmem]

/-- A risk item whose `risk` text exceeds 200 characters fails validation. -/
theorem parseRiskItem_none_of_long_risk (ifs : List (String × Json)) (s : String)
    (hl : jsonLookup ifs "risk" = some (.str s)) (hs : 200 < s.length) :
    parseRiskItem (.obj ifs) = none := by
  simp only [parseRiskItem, hl, Option.some_bind]
  simp [parseBoundedString, Nat.not_le.mpr hs]

/-- A successful schema parse certifies that every capped field validated. -/
theorem riskDiscoverySafeParse_fields (flds : List (String × Json))
    (out : RiskDiscoveryOutput) (h : riskDiscoverySafeParse (.obj flds) = some out) :
    (parseCappedArray 5 parseRiskItem (jsonLookup flds "implicit_assumptions")).isSome = true ∧
    (parseCappedArray 5 parseRiskItem (jsonLookup flds "second_order_effects")).isSome = true ∧
    (parseCappedArray 5 parseRiskItem (jsonLookup flds "tail_risks")).isSome = true ∧
    (parseCappedArray 5 parseRiskItem (jsonLookup flds "metric_gaming_vectors")).isSome = true ∧
    (parseCappedArray 5 parseRiskItem (jsonLookup flds "cross_functional_impacts")).isSome = true ∧
    (parseCappedArray 3 (parseBoundedString 200)
      (jsonLookup flds "top_3_unseen_risks")).isSome = true := by
  simp only [riskDiscoverySafeParse, Option.bind_eq_bind', Option.bind_eq_some] at h
  obtain ⟨ia, hia, so, hso, tr, htr, mg, hmg, cf, hcf, top, htop, dn, hdn, _⟩ := h
  exact ⟨by rw [hia]; rfl, by rw [hso]; rfl, by rw [htr]; rfl, by rw [hmg]; rfl,
    by rw [hcf]; rfl, by rw [htop]; rfl⟩

/-- C5 (amended): for every non-empty model response on which defensive
extraction fails — all three parse strategies fail, or a parse succeeds but
schema validation rejects it — `discoverRisks` returns the empty risk set with
exactly one `{stage, error}` failure entry and no exception; and out-of-range
responses (a category list over 5 items, a top-3 list over 3 items, a risk
text over 200 characters) are schema-rejected, never silently truncated.  (An
empty response string is first replaced by an empty JSON object and so yields
zero failure entries — see the counterexample.) -/
theorem discoverRisks_failure_fail_closed :
    (∀ (jp : String → Option Json) (raw : String),
      jp raw = none → codeBlockGroup raw = none → braceSpan raw = none →
      extractAndValidateJson jp raw = .error "No JSON found in response") ∧
    (∀ (jp : String → Option Json) (modelName responseModel : String) (latency : Nat)
        (content e : String),
      content ≠ "" → extractAndValidateJson jp content = .error e →
      (discoverRisksLive jp modelName responseModel latency content).risks = emptyRisks ∧
      (discoverRisksLive jp modelName responseModel latency content).trace.failures =
        [{ stage := "riskDiscovery", error := "Error: " ++ e }]) ∧
    (∀ (flds : List (String × Json)) (name : String) (xs : List Json),
      name ∈ riskCategoryFields → jsonLookup flds name = some (.arr xs) →
      5 < xs.length → riskDiscoverySafeParse (.obj flds) = none) ∧
    (∀ (flds : List (String × Json)) (xs : List Json),
      jsonLookup flds "top_3_unseen_risks" = some (.arr xs) → 3 < xs.length →
      riskDiscoverySafeParse (.obj flds) = none) ∧
    (∀ (flds ifs : List (String × Json)) (xs : List Json) (s : String),
      jsonLookup flds "tail_risks" = some (.arr xs) → Json.obj ifs ∈ xs →
      jsonLookup ifs "risk" = some (.str s) → 200 < s.length →
      riskDiscoverySafeParse (.obj flds) = none) := by
  refine ⟨?_, ?_, ?_, ?_, ?_⟩
  · intro jp raw hjp hcb hbs
    simp only [extractAndValidateJson, hjp, hcb, hbs]
  · intro jp modelName responseModel latency content e hcontent hext
    unfold discoverRisksLive
    dsimp only
    rw [if_neg hcontent]
    simp only [hext]
    exact ⟨trivial, trivial⟩
  · intro flds name xs hmem hlook hlen
    cases hsp : riskDiscoverySafeParse (.obj flds) with
    | none => rfl
    | some out =>
      exfalso
      have hfields := riskDiscoverySafeParse_fields flds out hsp
      have hov : parseCappedArray 5 parseRiskItem (some (Json.arr xs)) = none :=
        parseCappedArray_none_of_overflow 5 parseRiskItem xs hlen
      fin_cases hmem
      · have hc := hfields.1
        rw [hlook, hov] at hc
        simp at hc
      · have hc := hfields.2.1
        rw [hlook, hov] at hc
        simp at hc
      · have hc := hfields.2.2.1
        rw [hlook, hov] at hc
        simp at hc
      · have hc := hfields.2.2.2.1
        rw [hlook, hov] at hc
        simp at hc
      · have hc := hfields.2.2.2.2.1
        rw [hlook, hov] at hc
        simp at hc
  · intro flds xs hlook hlen
    cases hsp : riskDiscoverySafeParse (.obj flds) with
    | none => rfl
    | some out =>
      exfalso
      have hc := (riskDiscoverySafeParse_fields flds out hsp).2.2.2.2.2
      rw [hlook, parseCappedArray_none_of_overflow 3 (parseBoundedString 200) xs hlen] at hc
      simp at hc
  · intro flds ifs xs s hlook hmem hrisk hs
    cases hsp : riskDiscoverySafeParse (.obj flds) with
    | none => rfl
    | some out =>
      exfalso
      have hc := (riskDiscoverySafeParse_fields flds out hsp).2.2.1
      have hitem : parseRiskItem (Json.obj ifs) = none :=
        parseRiskItem_none_of_long_risk ifs s hrisk hs
      have helems : parseElems parseRiskItem xs = none :=
        parseElems_none_of_mem _ hmem hitem
      have hnone : parseCappedArray 5 parseRiskItem (some (Json.arr xs)) = none := by
        unfold parseCappedArray
        dsimp only
        split_ifs
        · exact helems
        · rfl
      rw [hlook, hnone] at hc
      simp at hc

set_option maxRecDepth 8192 in
/-- Witness for the amended C5: a prose response fails all three strategies
and is converted fail-closed, and each oversize shape is schema-rejected. -/
theorem discoverRisks_failure_fail_closed_witness :
    extractAndValidateJson jpNoJson "plain text response" =
      .error "No JSON found in response" ∧
    (discoverRisksLive jpNoJson "gpt-4o" "gpt-4o" 0 "plain text response").risks =
      emptyRisks ∧
    (discoverRisksLive jpNoJson "gpt-4o" "gpt-4o" 0 "plain text response").trace.failures =
      [{ stage := "riskDiscovery", error := "Error: No JSON found in response" }] ∧
    riskDiscoverySafeParse (.obj oversizeTailFields) = none ∧
    riskDiscoverySafeParse (.obj oversizeTopFields) = none ∧
    riskDiscoverySafeParse (.obj longTailFields) = none := by
  have hext : extractAndValidateJson jpNoJson "plain text response" =
      .error "No JSON found in response" :=
    discoverRisks_failure_fail_closed.1 jpNoJson "plain text response" rfl rfl rfl
  have hmain := discoverRisks_failure_fail_closed.2.1 jpNoJson "gpt-4o" "gpt-4o" 0
    "plain text response" "No JSON found in response" (by decide) hext
  refine ⟨hext, hmain.1, hmain.2, ?_, ?_, ?_⟩
  · exact discoverRisks_failure_fail_closed.2.2.1 oversizeTailFields "tail_risks"
      (List.replicate 6 Json.null) (by decide) rfl (by decide)
  · exact discoverRisks_failure_fail_closed.2.2.2.1 oversizeTopFields
      (List.replicate 4 (Json.str "x")) rfl (by decide)
  · exact discoverRisks_failure_fail_closed.2.2.2.2 longTailFields longRiskItemFields
      [Json.obj longRiskItemFields] longRiskText rfl (List.mem_singleton.mpr rfl) rfl
      (by decide)

/-- C5 counterexample: the empty response string fails all three extraction
strategies, yet `discoverRisks` replaces it with an empty JSON object before
extraction (`content || two-brace-string`), parses it successfully, and
returns the empty risk set with zero failure entries — not exactly one. -/
theorem discoverRisks_empty_response_counterexample :
    (jpEmptyObject "" = none ∧ codeBlockGroup "" = none ∧ braceSpan "" = none) ∧
    (discoverRisksLive jpEmptyObject "gpt-4o" "gpt-4o" 0 "").risks = emptyRisks ∧
    (discoverRisksLive jpEmptyObject "gpt-4o" "gpt-4o" 0 "").trace.failures = [] ∧
    ¬ ((discoverRisksLive jpEmptyObject "gpt-4o" "gpt-4o" 0 "").trace.failures.length = 1) :=
  ⟨⟨rfl, rfl, rfl⟩, rfl, rfl, by decide⟩

end Mandate
